import Mathlib

/-!
Shallow embedding of the server-side RPC call facades of
src/grpc/include/userver/ugrpc/server/rpc.hpp (namespace ugrpc::server).

Each call-shape facade (UnaryCall, InputStream, OutputStream,
BidirectionalStream) is modelled by its private state from rpc.hpp; every
method is a pure function from the pre-state (plus the middleware hooks and
the raw-stream answers the method consumes) to an outcome, a post-state and
the list of events the method emits — operations issued to the raw stream
and accounting events (access-log line, statistics-scope update, span
status update).  A UINVARIANT or UASSERT failure is modelled as the fatal
contract-violation outcome (the method performs nothing else, since the
check is the first statement of every method); a thrown RpcInterruptedError
is modelled as the interrupted outcome.  The middleware hooks
(ApplyRequestHook / ApplyResponseHook) are modelled as message transforms
passed in as parameters.
-/

namespace UgrpcServer

/-- grpc::Status, reduced to its error code (0 is StatusCode OK). -/
structure GStatus where
  code : Nat
  deriving DecidableEq, Repr, BEq

/-- grpc::Status::ok(): the status code equals OK. -/
def GStatus.isOk (s : GStatus) : Bool := s.code == 0

/-- grpc::Status::OK. -/
def statusOK : GStatus := ⟨0⟩

/-- Modelled from the spec: impl::kUnknownErrorStatus lives in
async_methods.hpp, which is not under src/.  Per the spec, scope exit of an
unfinished call reports an unknown/internal error status; we model the
constant as the UNKNOWN status code 2.  The claims only use that it is a
fixed non-OK status. -/
def kUnknownErrorStatus : GStatus := ⟨2⟩

/-- One observable side effect of a facade method: an operation issued to
the raw stream, or one accounting event (access-log finish line via
LogFinish, statistics-scope update via OnExplicitFinish, span status update
via UpdateSpanWithStatus).  R is the response message type. -/
inductive Event (R : Type) where
  | logFinish (status : GStatus)
  | statsFinish (code : Nat)
  | spanStatus (status : GStatus)
  | streamRead
  | streamWrite (response : R)
  | streamFinish (status : GStatus)
  | streamFinishR (response : R) (status : GStatus)
  | streamFinishWithError (status : GStatus)
  | streamWriteAndFinish (response : R) (status : GStatus)
  | streamCancel
  | streamCancelWithError
  | sendInitialMetadata
  deriving DecidableEq, Repr

/-- Whether the event is a cancellation issued to the raw stream
(impl::Cancel or impl::CancelWithError). -/
def Event.isCancel {R : Type} : Event R → Bool
  | .streamCancel => true
  | .streamCancelWithError => true
  | _ => false

/-- Whether the event is the terminal access-log accounting event
(LogFinish). -/
def Event.isLogFinish {R : Type} : Event R → Bool
  | .logFinish _ => true
  | _ => false

/-- Whether the event is the LogFinish accounting event carrying exactly the
given status. -/
def Event.isLogFinishWith {R : Type} (s : GStatus) : Event R → Bool
  | .logFinish t => t == s
  | _ => false

/-- Whether the event is a statistics-scope terminal event
(OnExplicitFinish). -/
def Event.isStatsFinish {R : Type} : Event R → Bool
  | .statsFinish _ => true
  | _ => false

/-- Whether the event is a span status update (UpdateSpanWithStatus). -/
def Event.isSpanStatus {R : Type} : Event R → Bool
  | .spanStatus _ => true
  | _ => false

/-- Whether the event is the one-time stream-opening metadata send. -/
def Event.isMetadataSend {R : Type} : Event R → Bool
  | .sendInitialMetadata => true
  | _ => false

/-- Whether the event is an operation actually performed on the raw
transport stream (read, write, finish, write-and-finish, cancel, or the
opening-metadata send). -/
def Event.isTransportOp {R : Type} : Event R → Bool
  | .streamRead => true
  | .streamWrite _ => true
  | .streamFinish _ => true
  | .streamFinishR _ _ => true
  | .streamFinishWithError _ => true
  | .streamWriteAndFinish _ _ => true
  | .streamCancel => true
  | .streamCancelWithError => true
  | .sendInitialMetadata => true
  | _ => false

/-- Number of events in the trace satisfying the predicate. -/
def countE {R : Type} (p : Event R → Bool) (evs : List (Event R)) : Nat :=
  evs.countP p

/-- The response messages recorded on the raw stream, in order (messages
carried by write, finish-with-response and write-and-finish operations). -/
def recordedMessages {R : Type} : List (Event R) → List R
  | [] => []
  | .streamWrite r :: t => r :: recordedMessages t
  | .streamFinishR r _ :: t => r :: recordedMessages t
  | .streamWriteAndFinish r _ :: t => r :: recordedMessages t
  | _ :: t => recordedMessages t

/-- The statuses recorded on the raw stream by finish-family operations, in
order. -/
def recordedStatuses {R : Type} : List (Event R) → List GStatus
  | [] => []
  | .streamFinish s :: t => s :: recordedStatuses t
  | .streamFinishR _ s :: t => s :: recordedStatuses t
  | .streamFinishWithError s :: t => s :: recordedStatuses t
  | .streamWriteAndFinish _ s :: t => s :: recordedStatuses t
  | _ :: t => recordedStatuses t

/-- The status codes recorded on the statistics scope, in order. -/
def recordedStats {R : Type} : List (Event R) → List Nat
  | [] => []
  | .statsFinish c :: t => c :: recordedStats t
  | _ :: t => recordedStats t

/-- The statuses recorded on the tracing span, in order. -/
def recordedSpans {R : Type} : List (Event R) → List GStatus
  | [] => []
  | .spanStatus s :: t => s :: recordedSpans t
  | _ :: t => recordedSpans t

/-- How a facade method returns: normal completion with a value, the fatal
contract-violation path (UINVARIANT / UASSERT abort), or a propagated
RpcInterruptedError. -/
inductive Outcome (α : Type) where
  | ok (value : α)
  | fatal (msg : String)
  | interrupted
  deriving DecidableEq, Repr

/-- Result of one facade method: outcome, post-state, emitted events. -/
structure StepRes (σ α R : Type) where
  outcome : Outcome α
  post : σ
  events : List (Event R)
  deriving DecidableEq, Repr

/-- Modelled from the spec: the answer of impl::Read on the raw stream
(async_methods.hpp is not under src/).  Per the spec the raw stream offers
a directional read(message) returning present or absent, and a transport
interruption is surfaced to the handler as a typed failure from a read or
write operation. -/
inductive ReadRes (Q : Type) where
  | success (msg : Q)
  | eof
  | interrupted
  deriving DecidableEq, Repr

/-- Modelled from the spec: the answer of impl::Write on the raw stream —
success, or a thrown RpcInterruptedError (exactly the branch that
BidirectionalStream::Write catches in rpc.hpp). -/
inductive WriteRes where
  | ok
  | interrupted
  deriving DecidableEq, Repr

/-! ## UnaryCall (rpc.hpp 140-183, 399-445) -/

/-- Private state of UnaryCall: bool is_finished_ (rpc.hpp line 182). -/
structure UnaryCall where
  is_finished : Bool
  deriving DecidableEq, Repr

/-- UnaryCall::IsFinished (rpc.hpp 442-445). -/
def UnaryCall.IsFinished (c : UnaryCall) : Bool := c.is_finished

/-- UnaryCall::Finish(Response&) (rpc.hpp 419-430): UINVARIANT not finished;
set is_finished_; apply the response hook; LogFinish(OK); impl::Finish with
the response and OK; statistics OnExplicitFinish(OK); span update with OK. -/
def UnaryCall.Finish {R : Type} (respHook : R → R) (c : UnaryCall) (response : R) :
    StepRes UnaryCall Unit R :=
  if c.is_finished then
    ⟨Outcome.fatal "Finish called on a finished call", c, []⟩
  else
    ⟨Outcome.ok (), ⟨true⟩,
      [Event.logFinish statusOK,
       Event.streamFinishR (respHook response) statusOK,
       Event.statsFinish 0,
       Event.spanStatus statusOK]⟩

/-- UnaryCall::FinishWithError (rpc.hpp 432-440): early return if already
finished; otherwise set is_finished_; LogFinish(status);
impl::FinishWithError(status); statistics OnExplicitFinish(error code);
span update.  Note: no assertion on the status here. -/
def UnaryCall.FinishWithError {R : Type} (c : UnaryCall) (status : GStatus) :
    StepRes UnaryCall Unit R :=
  if c.IsFinished then
    ⟨Outcome.ok (), c, []⟩
  else
    ⟨Outcome.ok (), ⟨true⟩,
      [Event.logFinish status,
       Event.streamFinishWithError status,
       Event.statsFinish status.code,
       Event.spanStatus status]⟩

/-- Destructor of UnaryCall (rpc.hpp 406-412): if not finished,
impl::CancelWithError then LogFinish(kUnknownErrorStatus); else nothing. -/
def UnaryCall.destroy {R : Type} (c : UnaryCall) : List (Event R) :=
  if c.is_finished then []
  else [Event.streamCancelWithError, Event.logFinish kUnknownErrorStatus]

/-! ## InputStream (rpc.hpp 185-240, 447-511) -/

/-- InputStream::State (rpc.hpp line 236). -/
inductive InputState where
  | kOpen
  | kReadsDone
  | kFinished
  deriving DecidableEq, Repr

/-- Private state of InputStream: State state_ (rpc.hpp line 239). -/
structure InputStream where
  state : InputState
  deriving DecidableEq, Repr

/-- InputStream::IsFinished (rpc.hpp 508-511). -/
def InputStream.IsFinished (c : InputStream) : Bool :=
  c.state == InputState.kFinished

/-- InputStream::Read (rpc.hpp 462-473): UINVARIANT state is kOpen; on a
successful impl::Read apply the request hook and return true; on absence
move to kReadsDone and return false; an interruption from impl::Read
propagates with the state unchanged (no catch in the source). -/
def InputStream.Read {Q R : Type} (reqHook : Q → Q) (c : InputStream)
    (raw : ReadRes Q) : StepRes InputStream (Bool × Option Q) R :=
  match c.state with
  | InputState.kOpen =>
    match raw with
    | ReadRes.success msg =>
      ⟨Outcome.ok (true, some (reqHook msg)), c, [Event.streamRead]⟩
    | ReadRes.eof =>
      ⟨Outcome.ok (false, none), ⟨InputState.kReadsDone⟩, [Event.streamRead]⟩
    | ReadRes.interrupted =>
      ⟨Outcome.interrupted, c, [Event.streamRead]⟩
  | _ =>
    ⟨Outcome.fatal "Read called while the stream is half-closed for reads",
      c, []⟩

/-- InputStream::Finish(Response&) (rpc.hpp 480-494): UINVARIANT state is
not kFinished; set kFinished; LogFinish(OK); apply the response hook;
impl::Finish with the response and OK; statistics; span. -/
def InputStream.Finish {R : Type} (respHook : R → R) (c : InputStream)
    (response : R) : StepRes InputStream Unit R :=
  match c.state with
  | InputState.kFinished =>
    ⟨Outcome.fatal "Finish called on a finished stream", c, []⟩
  | _ =>
    ⟨Outcome.ok (), ⟨InputState.kFinished⟩,
      [Event.logFinish statusOK,
       Event.streamFinishR (respHook response) statusOK,
       Event.statsFinish 0,
       Event.spanStatus statusOK]⟩

/-- InputStream::FinishWithError (rpc.hpp 496-506): UASSERT the status is
not OK; early return if already finished; otherwise set kFinished;
LogFinish; impl::FinishWithError; statistics; span. -/
def InputStream.FinishWithError {R : Type} (c : InputStream) (status : GStatus) :
    StepRes InputStream Unit R :=
  if status.isOk then
    ⟨Outcome.fatal "UASSERT failed: status is OK", c, []⟩
  else if c.IsFinished then
    ⟨Outcome.ok (), c, []⟩
  else
    ⟨Outcome.ok (), ⟨InputState.kFinished⟩,
      [Event.logFinish status,
       Event.streamFinishWithError status,
       Event.statsFinish status.code,
       Event.spanStatus status]⟩

/-- Destructor of InputStream (rpc.hpp 454-460): if state is not kFinished,
impl::CancelWithError then LogFinish(kUnknownErrorStatus). -/
def InputStream.destroy {R : Type} (c : InputStream) : List (Event R) :=
  match c.state with
  | InputState.kFinished => []
  | _ => [Event.streamCancelWithError, Event.logFinish kUnknownErrorStatus]

/-! ## OutputStream (rpc.hpp 242-313, 513-602) -/

/-- OutputStream::State (rpc.hpp line 309). -/
inductive OutputState where
  | kNew
  | kOpen
  | kFinished
  deriving DecidableEq, Repr

/-- Private state of OutputStream: State state_ (rpc.hpp line 312). -/
structure OutputStream where
  state : OutputState
  deriving DecidableEq, Repr

/-- OutputStream::IsFinished (rpc.hpp 599-602). -/
def OutputStream.IsFinished (c : OutputStream) : Bool :=
  c.state == OutputState.kFinished

/-- Modelled from the spec: impl::SendInitialMetadataIfNew
(async_methods.hpp is not under src/).  Per the spec the raw stream offers
a one-time send of the stream-opening metadata, keyed on the phase passed
by reference from OutputStream::Write: if the phase is still kNew, the
metadata send is performed and the phase becomes kOpen; otherwise nothing
happens. -/
def SendInitialMetadataIfNew {R : Type} (s : OutputState) :
    OutputState × List (Event R) :=
  match s with
  | OutputState.kNew => (OutputState.kOpen, [Event.sendInitialMetadata])
  | s => (s, [])

/-- OutputStream::Write (rpc.hpp 533-548): UINVARIANT state is not
kFinished; impl::SendInitialMetadataIfNew on state_; apply the response
hook; impl::Write without buffering.  A thrown RpcInterruptedError
propagates with the state as updated by the metadata step (no catch in the
source). -/
def OutputStream.Write {R : Type} (respHook : R → R) (c : OutputStream)
    (response : R) (wres : WriteRes) : StepRes OutputStream Unit R :=
  match c.state with
  | OutputState.kFinished =>
    ⟨Outcome.fatal "Write called on a finished stream", c, []⟩
  | s =>
    let meta := SendInitialMetadataIfNew (R := R) s
    let evs := meta.2 ++ [Event.streamWrite (respHook response)]
    match wres with
    | WriteRes.ok => ⟨Outcome.ok (), ⟨meta.1⟩, evs⟩
    | WriteRes.interrupted => ⟨Outcome.interrupted, ⟨meta.1⟩, evs⟩

/-- OutputStream::Finish (rpc.hpp 550-561): UINVARIANT state is not
kFinished; set kFinished; LogFinish(OK); impl::Finish(OK); statistics
OnExplicitFinish(OK); span update. -/
def OutputStream.Finish {R : Type} (c : OutputStream) : StepRes OutputStream Unit R :=
  match c.state with
  | OutputState.kFinished =>
    ⟨Outcome.fatal "Finish called on a finished stream", c, []⟩
  | _ =>
    ⟨Outcome.ok (), ⟨OutputState.kFinished⟩,
      [Event.logFinish statusOK,
       Event.streamFinish statusOK,
       Event.statsFinish 0,
       Event.spanStatus statusOK]⟩

/-- OutputStream::FinishWithError (rpc.hpp 563-572): UASSERT the status is
not OK; early return if already finished; otherwise set kFinished;
LogFinish; impl::Finish(status); statistics; span. -/
def OutputStream.FinishWithError {R : Type} (c : OutputStream) (status : GStatus) :
    StepRes OutputStream Unit R :=
  if status.isOk then
    ⟨Outcome.fatal "UASSERT failed: status is OK", c, []⟩
  else if c.IsFinished then
    ⟨Outcome.ok (), c, []⟩
  else
    ⟨Outcome.ok (), ⟨OutputState.kFinished⟩,
      [Event.logFinish status,
       Event.streamFinish status,
       Event.statsFinish status.code,
       Event.spanStatus status]⟩

/-- OutputStream::WriteAndFinish (rpc.hpp 579-597): UINVARIANT state is not
kFinished; set kFinished; LogFinish(OK); apply the response hook;
impl::WriteAndFinish with the response and OK (a single transport
operation, and no metadata step); statistics; span. -/
def OutputStream.WriteAndFinish {R : Type} (respHook : R → R) (c : OutputStream)
    (response : R) : StepRes OutputStream Unit R :=
  match c.state with
  | OutputState.kFinished =>
    ⟨Outcome.fatal "WriteAndFinish called on a finished stream", c, []⟩
  | _ =>
    ⟨Outcome.ok (), ⟨OutputState.kFinished⟩,
      [Event.logFinish statusOK,
       Event.streamWriteAndFinish (respHook response) statusOK,
       Event.statsFinish 0,
       Event.spanStatus statusOK]⟩

/-- Destructor of OutputStream (rpc.hpp 520-526): if state is not
kFinished, impl::Cancel then LogFinish(kUnknownErrorStatus). -/
def OutputStream.destroy {R : Type} (c : OutputStream) : List (Event R) :=
  match c.state with
  | OutputState.kFinished => []
  | _ => [Event.streamCancel, Event.logFinish kUnknownErrorStatus]

/-- One handler-issued operation on an OutputStream, together with the raw
stream answer it consumes (for Write). -/
inductive OOp (R : Type) where
  | write (response : R) (wres : WriteRes)
  | finish
  | finishWithError (status : GStatus)
  | writeAndFinish (response : R)
  deriving DecidableEq, Repr

/-- Dispatch one OOp to the corresponding OutputStream method. -/
def OutputStream.execOp {R : Type} (respHook : R → R) (c : OutputStream) :
    OOp R → StepRes OutputStream Unit R
  | OOp.write r wres => c.Write respHook r wres
  | OOp.finish => c.Finish
  | OOp.finishWithError status => c.FinishWithError status
  | OOp.writeAndFinish r => c.WriteAndFinish respHook r

/-- Run a sequence of handler operations on an OutputStream, accumulating
the emitted events; execution stops at the first operation that does not
complete normally (a fatal contract violation aborts, a thrown
interruption forbids further use of the stream). -/
def OutputStream.runOps {R : Type} (respHook : R → R) (c : OutputStream) :
    List (OOp R) → OutputStream × List (Event R)
  | [] => (c, [])
  | op :: rest =>
    let step := c.execOp respHook op
    match step.outcome with
    | Outcome.ok _ =>
      let tail := OutputStream.runOps respHook step.post rest
      (tail.1, step.events ++ tail.2)
    | _ => (step.post, step.events)

/-! ## BidirectionalStream (rpc.hpp 315-395, 604-713) -/

/-- Private state of BidirectionalStream: bool are_reads_done_ and bool
is_finished_ (rpc.hpp lines 393-394). -/
structure BidirectionalStream where
  are_reads_done : Bool
  is_finished : Bool
  deriving DecidableEq, Repr

/-- BidirectionalStream::IsFinished (rpc.hpp 710-713). -/
def BidirectionalStream.IsFinished (c : BidirectionalStream) : Bool :=
  c.is_finished

/-- BidirectionalStream::Read (rpc.hpp 620-633): UINVARIANT reads are not
done; on a successful impl::Read apply the request hook and return true;
on absence set are_reads_done_ and return false; an interruption from
impl::Read propagates with both flags unchanged (no catch in the source,
and the method touches neither flag on that path). -/
def BidirectionalStream.Read {Q R : Type} (reqHook : Q → Q)
    (c : BidirectionalStream) (raw : ReadRes Q) :
    StepRes BidirectionalStream (Bool × Option Q) R :=
  if c.are_reads_done then
    ⟨Outcome.fatal "Read called while the stream is half-closed for reads",
      c, []⟩
  else
    match raw with
    | ReadRes.success msg =>
      ⟨Outcome.ok (true, some (reqHook msg)), c, [Event.streamRead]⟩
    | ReadRes.eof =>
      ⟨Outcome.ok (false, none), { c with are_reads_done := true },
        [Event.streamRead]⟩
    | ReadRes.interrupted =>
      ⟨Outcome.interrupted, c, [Event.streamRead]⟩

/-- BidirectionalStream::Write (rpc.hpp 640-657): UINVARIANT not finished;
apply the response hook; impl::Write without buffering; on a thrown
RpcInterruptedError, set is_finished_ and rethrow. -/
def BidirectionalStream.Write {R : Type} (respHook : R → R)
    (c : BidirectionalStream) (response : R) (wres : WriteRes) :
    StepRes BidirectionalStream Unit R :=
  if c.is_finished then
    ⟨Outcome.fatal "Write called on a finished stream", c, []⟩
  else
    match wres with
    | WriteRes.ok =>
      ⟨Outcome.ok (), c, [Event.streamWrite (respHook response)]⟩
    | WriteRes.interrupted =>
      ⟨Outcome.interrupted, { c with is_finished := true },
        [Event.streamWrite (respHook response)]⟩

/-- BidirectionalStream::Finish (rpc.hpp 659-669): UINVARIANT not finished;
set is_finished_; LogFinish(OK); impl::Finish(OK); statistics; span. -/
def BidirectionalStream.Finish {R : Type} (c : BidirectionalStream) :
    StepRes BidirectionalStream Unit R :=
  if c.is_finished then
    ⟨Outcome.fatal "Finish called on a finished stream", c, []⟩
  else
    ⟨Outcome.ok (), { c with is_finished := true },
      [Event.logFinish statusOK,
       Event.streamFinish statusOK,
       Event.statsFinish 0,
       Event.spanStatus statusOK]⟩

/-- BidirectionalStream::FinishWithError (rpc.hpp 671-681): UASSERT the
status is not OK; early return if already finished; otherwise set
is_finished_; LogFinish; impl::Finish(status); statistics; span. -/
def BidirectionalStream.FinishWithError {R : Type} (c : BidirectionalStream)
    (status : GStatus) : StepRes BidirectionalStream Unit R :=
  if status.isOk then
    ⟨Outcome.fatal "UASSERT failed: status is OK", c, []⟩
  else if c.IsFinished then
    ⟨Outcome.ok (), c, []⟩
  else
    ⟨Outcome.ok (), { c with is_finished := true },
      [Event.logFinish status,
       Event.streamFinish status,
       Event.statsFinish status.code,
       Event.spanStatus status]⟩

/-- BidirectionalStream::WriteAndFinish (rpc.hpp 689-708): UINVARIANT not
finished; set is_finished_; LogFinish(OK); apply the response hook;
impl::WriteAndFinish with the response and OK; statistics
OnExplicitFinish(OK error code); span. -/
def BidirectionalStream.WriteAndFinish {R : Type} (respHook : R → R)
    (c : BidirectionalStream) (response : R) :
    StepRes BidirectionalStream Unit R :=
  if c.is_finished then
    ⟨Outcome.fatal "WriteAndFinish called on a finished stream", c, []⟩
  else
    ⟨Outcome.ok (), { c with is_finished := true },
      [Event.logFinish statusOK,
       Event.streamWriteAndFinish (respHook response) statusOK,
       Event.statsFinish 0,
       Event.spanStatus statusOK]⟩

/-- Destructor of BidirectionalStream (rpc.hpp 612-618): if not finished,
impl::Cancel then LogFinish(kUnknownErrorStatus). -/
def BidirectionalStream.destroy {R : Type} (c : BidirectionalStream) :
    List (Event R) :=
  if c.is_finished then []
  else [Event.streamCancel, Event.logFinish kUnknownErrorStatus]

end UgrpcServer

open UgrpcServer

/-- Claim C1: for every call shape (Unary, Client-Streaming,
Server-Streaming, Bidirectional), destroying the facade while the call is
not finished issues exactly one cancellation to the raw stream and records
exactly one terminal accounting event carrying the unknown-error status —
the destructor trace is exactly the cancellation followed by that event —
while destroying an already finished call issues no cancellation and no
event. -/
theorem destructor_single_cancellation_and_event :
    ∀ (R : Type) (cu : UnaryCall) (ci : InputStream) (co : OutputStream)
      (cb : BidirectionalStream),
      kUnknownErrorStatus.isOk = false ∧
      (UnaryCall.destroy (R := R) cu =
        if cu.IsFinished then []
        else [Event.streamCancelWithError,
              Event.logFinish kUnknownErrorStatus]) ∧
      countE Event.isCancel (UnaryCall.destroy (R := R) cu) =
        (if cu.IsFinished then 0 else 1) ∧
      countE (Event.isLogFinishWith kUnknownErrorStatus)
        (UnaryCall.destroy (R := R) cu) = (if cu.IsFinished then 0 else 1) ∧
      (InputStream.destroy (R := R) ci =
        if ci.IsFinished then []
        else [Event.streamCancelWithError,
              Event.logFinish kUnknownErrorStatus]) ∧
      countE Event.isCancel (InputStream.destroy (R := R) ci) =
        (if ci.IsFinished then 0 else 1) ∧
      countE (Event.isLogFinishWith kUnknownErrorStatus)
        (InputStream.destroy (R := R) ci) = (if ci.IsFinished then 0 else 1) ∧
      (OutputStream.destroy (R := R) co =
        if co.IsFinished then []
        else [Event.streamCancel, Event.logFinish kUnknownErrorStatus]) ∧
      countE Event.isCancel (OutputStream.destroy (R := R) co) =
        (if co.IsFinished then 0 else 1) ∧
      countE (Event.isLogFinishWith kUnknownErrorStatus)
        (OutputStream.destroy (R := R) co) = (if co.IsFinished then 0 else 1) ∧
      (BidirectionalStream.destroy (R := R) cb =
        if cb.IsFinished then []
        else [Event.streamCancel, Event.logFinish kUnknownErrorStatus]) ∧
      countE Event.isCancel (BidirectionalStream.destroy (R := R) cb) =
        (if cb.IsFinished then 0 else 1) ∧
      countE (Event.isLogFinishWith kUnknownErrorStatus)
        (BidirectionalStream.destroy (R := R) cb) =
        (if cb.IsFinished then 0 else 1) := by
  intro R cu ci co cb
  obtain ⟨fu⟩ := cu
  obtain ⟨si⟩ := ci
  obtain ⟨so⟩ := co
  obtain ⟨rb, fb⟩ := cb
  cases fu <;> cases si <;> cases so <;> cases rb <;> cases fb <;>
    exact ⟨rfl, rfl, rfl, rfl, rfl, rfl, rfl, rfl, rfl, rfl, rfl, rfl, rfl⟩

/-- Claim C2: for every call shape, invoking FinishWithError with a
(legal) non-success status when the call is already terminal is a silent
no-op: the outcome is normal, the state is unchanged, and no event at all
(transport, statistics, span or log) is emitted. -/
theorem finishWithError_idempotent_on_terminal :
    ∀ (R : Type) (status : GStatus), status.isOk = false →
      (UnaryCall.FinishWithError (R := R) ⟨true⟩ status =
        ⟨Outcome.ok (), ⟨true⟩, []⟩) ∧
      (InputStream.FinishWithError (R := R) ⟨InputState.kFinished⟩ status =
        ⟨Outcome.ok (), ⟨InputState.kFinished⟩, []⟩) ∧
      (OutputStream.FinishWithError (R := R) ⟨OutputState.kFinished⟩ status =
        ⟨Outcome.ok (), ⟨OutputState.kFinished⟩, []⟩) ∧
      (∀ rd : Bool,
        BidirectionalStream.FinishWithError (R := R) ⟨rd, true⟩ status =
          ⟨Outcome.ok (), ⟨rd, true⟩, []⟩) := by
  intro R status h
  refine ⟨rfl, ?_, ?_, ?_⟩
  · simp [InputStream.FinishWithError, InputStream.IsFinished, h]
  · simp [OutputStream.FinishWithError, OutputStream.IsFinished, h]
  · intro rd
    simp [BidirectionalStream.FinishWithError, BidirectionalStream.IsFinished, h]

/-- Witness for claim C2 at the concrete status code 5 and R = Nat. -/
theorem finishWithError_idempotent_on_terminal_witness :
    GStatus.isOk ⟨5⟩ = false ∧
    UnaryCall.FinishWithError (R := Nat) ⟨true⟩ ⟨5⟩ =
      ⟨Outcome.ok (), ⟨true⟩, []⟩ ∧
    BidirectionalStream.FinishWithError (R := Nat) ⟨false, true⟩ ⟨5⟩ =
      ⟨Outcome.ok (), ⟨false, true⟩, []⟩ := by
  have h := finishWithError_idempotent_on_terminal Nat ⟨5⟩ (by decide)
  exact ⟨by decide, h.1, h.2.2.2 false⟩

/-- Claim C3: for every call shape, Finish from a non-terminal state
completes normally, transitions the call to its terminal state and makes
IsFinished true; a second Finish attempt — from the terminal state, hence
also after FinishWithError — returns the fatal contract-violation outcome
with the state unchanged and no event emitted (in particular no second
accounting event). -/
theorem finish_once_then_second_finish_fatal :
    ∀ (R : Type) (respHook : R → R) (r : R),
      ((UnaryCall.Finish respHook ⟨false⟩ r).outcome = Outcome.ok () ∧
       (UnaryCall.Finish respHook ⟨false⟩ r).post.IsFinished = true ∧
       UnaryCall.Finish respHook ⟨true⟩ r =
         ⟨Outcome.fatal "Finish called on a finished call", ⟨true⟩, []⟩ ∧
       UnaryCall.Finish respHook
           (UnaryCall.FinishWithError (R := R) ⟨false⟩ ⟨5⟩).post r =
         ⟨Outcome.fatal "Finish called on a finished call", ⟨true⟩, []⟩) ∧
      ((InputStream.Finish respHook ⟨InputState.kOpen⟩ r).outcome =
         Outcome.ok () ∧
       (InputStream.Finish respHook ⟨InputState.kOpen⟩ r).post.IsFinished =
         true ∧
       (InputStream.Finish respHook ⟨InputState.kReadsDone⟩ r).outcome =
         Outcome.ok () ∧
       (InputStream.Finish respHook ⟨InputState.kReadsDone⟩ r).post.IsFinished =
         true ∧
       InputStream.Finish respHook ⟨InputState.kFinished⟩ r =
         ⟨Outcome.fatal "Finish called on a finished stream",
          ⟨InputState.kFinished⟩, []⟩) ∧
      ((OutputStream.Finish (R := R) ⟨OutputState.kNew⟩).outcome =
         Outcome.ok () ∧
       (OutputStream.Finish (R := R) ⟨OutputState.kNew⟩).post.IsFinished =
         true ∧
       (OutputStream.Finish (R := R) ⟨OutputState.kOpen⟩).outcome =
         Outcome.ok () ∧
       (OutputStream.Finish (R := R) ⟨OutputState.kOpen⟩).post.IsFinished =
         true ∧
       OutputStream.Finish (R := R) ⟨OutputState.kFinished⟩ =
         ⟨Outcome.fatal "Finish called on a finished stream",
          ⟨OutputState.kFinished⟩, []⟩) ∧
      (∀ rd : Bool,
       (BidirectionalStream.Finish (R := R) ⟨rd, false⟩).outcome =
         Outcome.ok () ∧
       (BidirectionalStream.Finish (R := R) ⟨rd, false⟩).post.IsFinished =
         true ∧
       BidirectionalStream.Finish (R := R) ⟨rd, true⟩ =
         ⟨Outcome.fatal "Finish called on a finished stream",
          ⟨rd, true⟩, []⟩) := by
  intro R respHook r
  refine ⟨⟨rfl, rfl, rfl, rfl⟩, ⟨rfl, rfl, rfl, rfl, rfl⟩,
    ⟨rfl, rfl, rfl, rfl, rfl⟩, ?_⟩
  intro rd
  cases rd <;> exact ⟨rfl, rfl, rfl⟩

/-- Claim C4: for a Unary call in the Open state, Finish(R) applies the
response hook to R, writes the hooked response with the success status to
the raw stream, records exactly one success event on the statistics scope,
updates the span with the success status, and transitions the call to
Finished. -/
theorem unary_finish_from_open_records_success :
    ∀ (R : Type) (respHook : R → R) (r : R),
      UnaryCall.Finish respHook ⟨false⟩ r =
        ⟨Outcome.ok (), ⟨true⟩,
         [Event.logFinish statusOK,
          Event.streamFinishR (respHook r) statusOK,
          Event.statsFinish 0,
          Event.spanStatus statusOK]⟩ ∧
      recordedMessages (UnaryCall.Finish respHook ⟨false⟩ r).events =
        [respHook r] ∧
      recordedStatuses (UnaryCall.Finish respHook ⟨false⟩ r).events =
        [statusOK] ∧
      countE Event.isStatsFinish (UnaryCall.Finish respHook ⟨false⟩ r).events =
        1 ∧
      recordedStats (UnaryCall.Finish respHook ⟨false⟩ r).events = [0] ∧
      recordedSpans (UnaryCall.Finish respHook ⟨false⟩ r).events =
        [statusOK] ∧
      countE Event.isLogFinish (UnaryCall.Finish respHook ⟨false⟩ r).events =
        1 ∧
      (UnaryCall.Finish respHook ⟨false⟩ r).post.IsFinished = true := by
  intro R respHook r
  exact ⟨rfl, rfl, rfl, rfl, rfl, rfl, rfl, rfl⟩

/-- Claim C5: for a Client-Streaming call, Read is valid only in the Open
state: on a successful transport read it applies the request hook and
returns true with the state still Open; on end-of-input it moves the state
to ReadsDone and returns false; and Read invoked in ReadsDone (after
end-of-input) or in Finished (after finish) returns the fatal
contract-violation outcome. -/
theorem inputStream_read_state_machine :
    ∀ (Q R : Type) (reqHook : Q → Q) (m : Q) (raw : ReadRes Q),
      (InputStream.Read (R := R) reqHook ⟨InputState.kOpen⟩
          (ReadRes.success m) =
        ⟨Outcome.ok (true, some (reqHook m)), ⟨InputState.kOpen⟩,
         [Event.streamRead]⟩) ∧
      (InputStream.Read (R := R) reqHook ⟨InputState.kOpen⟩ ReadRes.eof =
        ⟨Outcome.ok (false, none), ⟨InputState.kReadsDone⟩,
         [Event.streamRead]⟩) ∧
      (InputStream.Read (R := R) reqHook ⟨InputState.kReadsDone⟩ raw =
        ⟨Outcome.fatal "Read called while the stream is half-closed for reads",
         ⟨InputState.kReadsDone⟩, []⟩) ∧
      (InputStream.Read (R := R) reqHook ⟨InputState.kFinished⟩ raw =
        ⟨Outcome.fatal "Read called while the stream is half-closed for reads",
         ⟨InputState.kFinished⟩, []⟩) := by
  intro Q R reqHook m raw
  exact ⟨rfl, rfl, rfl, rfl⟩

namespace UgrpcServer

/-- Metadata-send budget of an OutputStream phase: one send is still
available while the phase is kNew, none afterwards. -/
def OutputState.metaBudget : OutputState → Nat
  | OutputState.kNew => 1
  | _ => 0

/-- One OutputStream operation emits at most the metadata sends still
available in its pre-state, and leaves no more available in its post-state
than the difference. -/
theorem execOp_meta_step {R : Type} (respHook : R → R) (c : OutputStream)
    (op : OOp R) :
    countE Event.isMetadataSend (c.execOp respHook op).events +
      (c.execOp respHook op).post.state.metaBudget ≤ c.state.metaBudget := by
  obtain ⟨s⟩ := c
  cases op with
  | write r wres =>
    cases s <;> cases wres <;>
      simp [OutputStream.execOp, OutputStream.Write, SendInitialMetadataIfNew,
        countE, OutputState.metaBudget, Event.isMetadataSend,
        List.countP_cons, List.countP_nil]
  | finish =>
    cases s <;>
      simp [OutputStream.execOp, OutputStream.Finish, countE,
        OutputState.metaBudget, Event.isMetadataSend, List.countP_cons,
        List.countP_nil]
  | finishWithError status =>
    cases hq : status.isOk <;> cases s <;>
      simp [OutputStream.execOp, OutputStream.FinishWithError,
        OutputStream.IsFinished, hq, countE, OutputState.metaBudget,
        Event.isMetadataSend, List.countP_cons, List.countP_nil]
  | writeAndFinish r =>
    cases s <;>
      simp [OutputStream.execOp, OutputStream.WriteAndFinish, countE,
        OutputState.metaBudget, Event.isMetadataSend, List.countP_cons,
        List.countP_nil]

/-- Across any sequence of OutputStream operations, the number of metadata
sends emitted is bounded by the budget of the starting phase. -/
theorem runOps_meta_le {R : Type} (respHook : R → R) (c : OutputStream)
    (ops : List (OOp R)) :
    countE Event.isMetadataSend (OutputStream.runOps respHook c ops).2 ≤
      c.state.metaBudget := by
  induction ops generalizing c with
  | nil => simp [OutputStream.runOps, countE]
  | cons op rest ih =>
    have hstep := execOp_meta_step respHook c op
    unfold OutputStream.runOps
    cases hout : (c.execOp respHook op).outcome with
    | ok v =>
      simp only [hout]
      have htail := ih (c.execOp respHook op).post
      simp only [countE, List.countP_append] at *
      omega
    | fatal msg =>
      simp only [hout]
      omega
    | interrupted =>
      simp only [hout]
      omega

end UgrpcServer

/-- Counterexample to claim C6: a Server-Streaming call whose very first
operation is Finish performs no stream-opening metadata send at all (so the
send is not performed exactly once, and is not triggered by the first
Finish), and the phase moves from New directly to Finished, never through
Open. -/
theorem outputStream_first_finish_no_metadata_cex :
    OutputStream.Finish (R := Nat) ⟨OutputState.kNew⟩ =
      ⟨Outcome.ok (), ⟨OutputState.kFinished⟩,
       [Event.logFinish statusOK, Event.streamFinish statusOK,
        Event.statsFinish 0, Event.spanStatus statusOK]⟩ ∧
    countE Event.isMetadataSend
      (OutputStream.Finish (R := Nat) ⟨OutputState.kNew⟩).events = 0 ∧
    (OutputStream.Finish (R := Nat) ⟨OutputState.kNew⟩).post.state ≠
      OutputState.kOpen := by
  exact ⟨rfl, rfl, by decide⟩

/-- Claim C6, amended: the stream-opening metadata send is performed at
most once during any sequence of operations starting from New; it is
triggered exactly by the first Write (which transitions New to Open) and is
never repeated by later writes; no finish-family operation (Finish,
FinishWithError, WriteAndFinish) performs it from any state, and a Finish
issued first moves the phase from New directly to Finished. -/
theorem outputStream_metadata_at_most_once_on_first_write :
    ∀ (R : Type) (respHook : R → R) (r : R) (wres : WriteRes)
      (ops : List (OOp R)),
      countE Event.isMetadataSend
        (OutputStream.runOps respHook ⟨OutputState.kNew⟩ ops).2 ≤ 1 ∧
      countE Event.isMetadataSend
        (OutputStream.Write respHook ⟨OutputState.kNew⟩ r wres).events = 1 ∧
      (OutputStream.Write respHook ⟨OutputState.kNew⟩ r wres).post.state =
        OutputState.kOpen ∧
      countE Event.isMetadataSend
        (OutputStream.Write respHook ⟨OutputState.kOpen⟩ r wres).events = 0 ∧
      (OutputStream.Write respHook ⟨OutputState.kOpen⟩ r wres).post.state =
        OutputState.kOpen ∧
      (∀ c : OutputStream,
        countE Event.isMetadataSend
          (OutputStream.Finish (R := R) c).events = 0) ∧
      (∀ (c : OutputStream) (status : GStatus),
        countE Event.isMetadataSend
          (OutputStream.FinishWithError (R := R) c status).events = 0) ∧
      (∀ c : OutputStream,
        countE Event.isMetadataSend
          (OutputStream.WriteAndFinish respHook c r).events = 0) ∧
      (OutputStream.Finish (R := R) ⟨OutputState.kNew⟩).post.state =
        OutputState.kFinished := by
  intro R respHook r wres ops
  refine ⟨runOps_meta_le respHook ⟨OutputState.kNew⟩ ops, ?_, ?_, ?_, ?_,
    ?_, ?_, ?_, rfl⟩
  · cases wres <;> rfl
  · cases wres <;> rfl
  · cases wres <;> rfl
  · cases wres <;> rfl
  · intro c
    obtain ⟨s⟩ := c
    cases s <;> rfl
  · intro c status
    obtain ⟨s⟩ := c
    cases hq : status.isOk <;> cases s <;>
      simp [OutputStream.FinishWithError, OutputStream.IsFinished, hq, countE,
        Event.isMetadataSend, List.countP_cons, List.countP_nil]
  · intro c
    obtain ⟨s⟩ := c
    cases s <;> rfl

/-- Counterexample to claim C7: from the non-terminal state New, the
separate sequence Write then Finish performs three raw-stream operations
(the opening-metadata send, the write, the finish) — not two — while
WriteAndFinish performs exactly one and skips the opening-metadata send
altogether. -/
theorem writeAndFinish_from_new_transport_count_cex :
    countE Event.isTransportOp
      (OutputStream.runOps (fun n : Nat => n) ⟨OutputState.kNew⟩
        [OOp.write 5 WriteRes.ok, OOp.finish]).2 = 3 ∧
    countE Event.isMetadataSend
      (OutputStream.runOps (fun n : Nat => n) ⟨OutputState.kNew⟩
        [OOp.write 5 WriteRes.ok, OOp.finish]).2 = 1 ∧
    countE Event.isTransportOp
      (OutputStream.WriteAndFinish (fun n : Nat => n) ⟨OutputState.kNew⟩
        5).events = 1 ∧
    countE Event.isMetadataSend
      (OutputStream.WriteAndFinish (fun n : Nat => n) ⟨OutputState.kNew⟩
        5).events = 0 := by
  exact ⟨rfl, rfl, rfl, rfl⟩

/-- Claim C7, amended: for a Server-Streaming call in the Open state,
WriteAndFinish(R) records the same message, the same raw-stream status, the
same statistics event and span status, and reaches the same terminal state
as Write(R) followed by Finish(), with exactly one transport operation
instead of two; from the New state the recorded message, status,
statistics, span and terminal state still coincide, but the separate
sequence additionally performs the opening-metadata send, for three
transport operations against exactly one. -/
theorem writeAndFinish_equiv_write_then_finish :
    ∀ (R : Type) (respHook : R → R) (r : R),
      recordedMessages
        (OutputStream.WriteAndFinish respHook ⟨OutputState.kOpen⟩ r).events =
        [respHook r] ∧
      recordedMessages
        (OutputStream.runOps respHook ⟨OutputState.kOpen⟩
          [OOp.write r WriteRes.ok, OOp.finish]).2 = [respHook r] ∧
      recordedStatuses
        (OutputStream.WriteAndFinish respHook ⟨OutputState.kOpen⟩ r).events =
        [statusOK] ∧
      recordedStatuses
        (OutputStream.runOps respHook ⟨OutputState.kOpen⟩
          [OOp.write r WriteRes.ok, OOp.finish]).2 = [statusOK] ∧
      recordedStats
        (OutputStream.WriteAndFinish respHook ⟨OutputState.kOpen⟩ r).events =
        [0] ∧
      recordedStats
        (OutputStream.runOps respHook ⟨OutputState.kOpen⟩
          [OOp.write r WriteRes.ok, OOp.finish]).2 = [0] ∧
      recordedSpans
        (OutputStream.WriteAndFinish respHook ⟨OutputState.kOpen⟩ r).events =
        [statusOK] ∧
      recordedSpans
        (OutputStream.runOps respHook ⟨OutputState.kOpen⟩
          [OOp.write r WriteRes.ok, OOp.finish]).2 = [statusOK] ∧
      (OutputStream.WriteAndFinish respHook ⟨OutputState.kOpen⟩ r).post =
        ⟨OutputState.kFinished⟩ ∧
      (OutputStream.runOps respHook ⟨OutputState.kOpen⟩
          [OOp.write r WriteRes.ok, OOp.finish]).1 =
        ⟨OutputState.kFinished⟩ ∧
      countE Event.isTransportOp
        (OutputStream.WriteAndFinish respHook ⟨OutputState.kOpen⟩ r).events =
        1 ∧
      countE Event.isTransportOp
        (OutputStream.runOps respHook ⟨OutputState.kOpen⟩
          [OOp.write r WriteRes.ok, OOp.finish]).2 = 2 ∧
      recordedMessages
        (OutputStream.WriteAndFinish respHook ⟨OutputState.kNew⟩ r).events =
        [respHook r] ∧
      recordedMessages
        (OutputStream.runOps respHook ⟨OutputState.kNew⟩
          [OOp.write r WriteRes.ok, OOp.finish]).2 = [respHook r] ∧
      recordedStatuses
        (OutputStream.WriteAndFinish respHook ⟨OutputState.kNew⟩ r).events =
        [statusOK] ∧
      recordedStatuses
        (OutputStream.runOps respHook ⟨OutputState.kNew⟩
          [OOp.write r WriteRes.ok, OOp.finish]).2 = [statusOK] ∧
      (OutputStream.WriteAndFinish respHook ⟨OutputState.kNew⟩ r).post =
        ⟨OutputState.kFinished⟩ ∧
      (OutputStream.runOps respHook ⟨OutputState.kNew⟩
          [OOp.write r WriteRes.ok, OOp.finish]).1 =
        ⟨OutputState.kFinished⟩ ∧
      countE Event.isTransportOp
        (OutputStream.WriteAndFinish respHook ⟨OutputState.kNew⟩ r).events =
        1 ∧
      countE Event.isTransportOp
        (OutputStream.runOps respHook ⟨OutputState.kNew⟩
          [OOp.write r WriteRes.ok, OOp.finish]).2 = 3 := by
  intro R respHook r
  exact ⟨rfl, rfl, rfl, rfl, rfl, rfl, rfl, rfl, rfl, rfl, rfl, rfl, rfl,
    rfl, rfl, rfl, rfl, rfl, rfl, rfl⟩

/-- Claim C9: for a Unary call, FinishWithError with a (legal) non-success
status invoked from the Open state completes normally, writes exactly that
error status to the raw stream, records its error code on the statistics
scope exactly once, logs and updates the span with it exactly once each,
and transitions the call to Finished. -/
theorem unary_finishWithError_nonok_records_once :
    ∀ (R : Type) (status : GStatus), status.isOk = false →
      UnaryCall.FinishWithError (R := R) ⟨false⟩ status =
        ⟨Outcome.ok (), ⟨true⟩,
         [Event.logFinish status,
          Event.streamFinishWithError status,
          Event.statsFinish status.code,
          Event.spanStatus status]⟩ ∧
      recordedStatuses
        (UnaryCall.FinishWithError (R := R) ⟨false⟩ status).events =
        [status] ∧
      recordedStats
        (UnaryCall.FinishWithError (R := R) ⟨false⟩ status).events =
        [status.code] ∧
      countE Event.isLogFinish
        (UnaryCall.FinishWithError (R := R) ⟨false⟩ status).events = 1 ∧
      countE Event.isStatsFinish
        (UnaryCall.FinishWithError (R := R) ⟨false⟩ status).events = 1 ∧
      (UnaryCall.FinishWithError (R := R) ⟨false⟩ status).post.IsFinished =
        true := by
  intro R status _
  exact ⟨rfl, rfl, rfl, rfl, rfl, rfl⟩

/-- Witness for claim C9 at the concrete status code 7 and R = Nat. -/
theorem unary_finishWithError_nonok_records_once_witness :
    GStatus.isOk ⟨7⟩ = false ∧
    UnaryCall.FinishWithError (R := Nat) ⟨false⟩ ⟨7⟩ =
      ⟨Outcome.ok (), ⟨true⟩,
       [Event.logFinish ⟨7⟩, Event.streamFinishWithError ⟨7⟩,
        Event.statsFinish 7, Event.spanStatus ⟨7⟩]⟩ := by
  exact ⟨by decide, (unary_finishWithError_nonok_records_once Nat ⟨7⟩
    (by decide)).1⟩

/-- Counterexample to claim C8: when the raw stream signals a transport
interruption during a Bidirectional Read, neither the reads-done flag nor
the finished flag is set (the failure propagates with the state unchanged),
and a subsequent Write attempt is accepted, not rejected as
already-finished. -/
theorem bidi_read_interrupted_flags_cex :
    (BidirectionalStream.Read (R := Nat) (fun n : Nat => n) ⟨false, false⟩
        ReadRes.interrupted).outcome = Outcome.interrupted ∧
    (BidirectionalStream.Read (R := Nat) (fun n : Nat => n) ⟨false, false⟩
        (ReadRes.interrupted (Q := Nat))).post = ⟨false, false⟩ ∧
    (BidirectionalStream.Write (fun n : Nat => n)
        (BidirectionalStream.Read (R := Nat) (fun n : Nat => n)
          ⟨false, false⟩ (ReadRes.interrupted (Q := Nat))).post
        7 WriteRes.ok).outcome = Outcome.ok () := by
  exact ⟨rfl, rfl, rfl⟩

/-- Claim C8, amended: for a Bidirectional call with reads not yet done, a
transport interruption during Read surfaces to the caller as the typed
interruption failure with the call state — both the reads-done flag and the
finished flag — unchanged; consequently a subsequent Write on a
not-finished call is accepted rather than rejected as already-finished
(only an interruption during Write itself sets the finished flag). -/
theorem bidi_read_interrupted_leaves_flags :
    ∀ (Q R : Type) (reqHook : Q → Q) (respHook : R → R)
      (c : BidirectionalStream) (r : R),
      c.are_reads_done = false →
      (BidirectionalStream.Read (R := R) reqHook c ReadRes.interrupted =
        ⟨Outcome.interrupted, c, [Event.streamRead]⟩) ∧
      (c.is_finished = false →
        (BidirectionalStream.Write respHook c r WriteRes.ok).outcome =
          Outcome.ok ()) := by
  intro Q R reqHook respHook c r h
  obtain ⟨rd, fin⟩ := c
  cases rd with
  | false =>
    refine ⟨rfl, ?_⟩
    intro hf
    cases fin with
    | false => rfl
    | true => cases hf
  | true => cases h

/-- Witness for claim C8 at Q = R = Nat, identity hooks and the state with
both flags clear. -/
theorem bidi_read_interrupted_leaves_flags_witness :
    (BidirectionalStream.Read (R := Nat) (fun n : Nat => n) ⟨false, false⟩
        ReadRes.interrupted =
      ⟨Outcome.interrupted, ⟨false, false⟩, [Event.streamRead]⟩) ∧
    (BidirectionalStream.Write (fun n : Nat => n) ⟨false, false⟩ 3
        WriteRes.ok).outcome = Outcome.ok () := by
  have h := bidi_read_interrupted_leaves_flags Nat Nat (fun n => n)
    (fun n => n) ⟨false, false⟩ 3 rfl
  exact ⟨h.1, h.2 rfl⟩

/-- Counterexample to claim C10: after a Bidirectional Write is interrupted
(which does set the finished flag), a subsequent FinishWithError with a
non-success status does not trigger the fatal contract-violation path — it
is a silent idempotent no-op that completes normally with no events. -/
theorem bidi_finishWithError_after_interrupted_write_cex :
    (BidirectionalStream.Write (fun n : Nat => n) ⟨false, false⟩ 3
        WriteRes.interrupted).post.is_finished = true ∧
    BidirectionalStream.FinishWithError (R := Nat)
        (BidirectionalStream.Write (fun n : Nat => n) ⟨false, false⟩ 3
          WriteRes.interrupted).post ⟨5⟩ =
      ⟨Outcome.ok (), ⟨false, true⟩, []⟩ := by
  exact ⟨rfl, rfl⟩

/-- Claim C10, amended: for a Bidirectional call that is not finished, an
interruption thrown by the underlying write inside Write sets the finished
flag before the failure propagates to the caller; consequently the
destructor performs no cancellation and no additional terminal event, and
any subsequent Write, Finish, or WriteAndFinish triggers the fatal
contract-violation path — while a subsequent FinishWithError with a
(legal) non-success status is a silent idempotent no-op. -/
theorem bidi_write_interrupted_sets_finished :
    ∀ (R : Type) (respHook : R → R) (c : BidirectionalStream) (r r2 : R)
      (wres2 : WriteRes) (status : GStatus),
      c.is_finished = false → status.isOk = false →
      (BidirectionalStream.Write respHook c r WriteRes.interrupted).outcome =
        Outcome.interrupted ∧
      (BidirectionalStream.Write respHook c r WriteRes.interrupted).post =
        { c with is_finished := true } ∧
      (BidirectionalStream.Write respHook c r WriteRes.interrupted).events =
        [Event.streamWrite (respHook r)] ∧
      BidirectionalStream.destroy (R := R)
        (BidirectionalStream.Write respHook c r WriteRes.interrupted).post =
        [] ∧
      (BidirectionalStream.Write respHook
          (BidirectionalStream.Write respHook c r WriteRes.interrupted).post
          r2 wres2).outcome =
        Outcome.fatal "Write called on a finished stream" ∧
      (BidirectionalStream.Finish (R := R)
          (BidirectionalStream.Write respHook c r
            WriteRes.interrupted).post).outcome =
        Outcome.fatal "Finish called on a finished stream" ∧
      (BidirectionalStream.WriteAndFinish respHook
          (BidirectionalStream.Write respHook c r WriteRes.interrupted).post
          r2).outcome =
        Outcome.fatal "WriteAndFinish called on a finished stream" ∧
      BidirectionalStream.FinishWithError (R := R)
          (BidirectionalStream.Write respHook c r WriteRes.interrupted).post
          status =
        ⟨Outcome.ok (),
         (BidirectionalStream.Write respHook c r WriteRes.interrupted).post,
         []⟩ := by
  intro R respHook c r r2 wres2 status hf hs
  obtain ⟨rd, fin⟩ := c
  cases fin with
  | true => cases hf
  | false =>
    refine ⟨rfl, rfl, rfl, rfl, rfl, rfl, rfl, ?_⟩
    simp [BidirectionalStream.FinishWithError, BidirectionalStream.IsFinished,
      BidirectionalStream.Write, hs]

/-- Witness for claim C10 at R = Nat, identity hook, the state with both
flags clear, and status code 5. -/
theorem bidi_write_interrupted_sets_finished_witness :
    (BidirectionalStream.Write (fun n : Nat => n) ⟨false, false⟩ 3
        WriteRes.interrupted).post = ⟨false, true⟩ ∧
    (BidirectionalStream.Finish (R := Nat)
        (BidirectionalStream.Write (fun n : Nat => n) ⟨false, false⟩ 3
          WriteRes.interrupted).post).outcome =
      Outcome.fatal "Finish called on a finished stream" := by
  have h := bidi_write_interrupted_sets_finished Nat (fun n => n)
    ⟨false, false⟩ 3 4 WriteRes.ok ⟨5⟩ rfl (by decide)
  exact ⟨h.2.1, h.2.2.2.2.2.1⟩
